import Mathlib

/-!
Shallow embedding of the offscreen-effect compositing pipeline of this
Clutter tree (clutter-offscreen-effect.c, clutter-blur-effect.c,
clutter-shader-effect.c), together with theorems checking the
specification's claims about it.

Modelling conventions, used throughout:

* GPU objects (textures, pipelines, offscreen buffers, snippets) are
  handles, i.e. natural numbers drawn from an allocation counter.  The
  Cogl reference counting visible to this code (`cogl_object_unref`,
  allocation with an initial reference) is modelled by a `ref : ℕ → ℕ`
  map; Cogl-internal references (a pipeline referencing its layer
  texture, an offscreen buffer referencing the texture it wraps) are
  not visible to the C code under study and are not modelled.
* `gfloat` quantities are modelled as exact rationals `ℚ`; the float →
  int conversions that happen at C call boundaries are modelled by
  truncation toward zero (`cTrunc`).  Gaussian weights, which involve
  `expf`/`sqrtf`, are modelled over `ℝ`.
* `CoglMatrix` is a 4×4 rational matrix.  `cogl_matrix_scale` and
  `cogl_matrix_translate` act entrywise exactly as in Cogl (columns
  scaled, last column accumulated).
* In Cogl each framebuffer owns its own modelview/projection/viewport
  state.  The code under study uses `cogl_push_framebuffer` /
  `cogl_pop_framebuffer` in strict stack discipline, so that semantics
  is rendered equivalently by saving the current matrix state on push
  and restoring it on pop.
* `g_slice_alloc` returns uninitialized memory: the fields of a freshly
  (re)allocated `PerCameraState` that the C code does not initialize
  (`valid_for_age`, `request_width/height`, `last_matrix_drawn`,
  viewport offsets) take their values from an arbitrary `junk` record
  carried in the state and universally quantified in every theorem.
-/

abbrev CoglHandle := Nat

abbrev CoglMatrix := Matrix (Fin 4) (Fin 4) ℚ

/-- Scale factors used by `cogl_matrix_scale`: the first three columns
are scaled by sx, sy, sz, the last is untouched. -/
def scaleFactors (sx sy sz : ℚ) : Fin 4 → ℚ := ![sx, sy, sz, 1]

/-- Entrywise transcription of `cogl_matrix_scale` (right-multiplication
by a diagonal scale: every column j is multiplied by the j-th factor). -/
def cogl_matrix_scale (m : CoglMatrix) (sx sy sz : ℚ) : CoglMatrix :=
  Matrix.of fun i j => m i j * scaleFactors sx sy sz j

/-- Entrywise transcription of `cogl_matrix_translate`
(right-multiplication by a translation: only the last column changes). -/
def cogl_matrix_translate (m : CoglMatrix) (x y z : ℚ) : CoglMatrix :=
  Matrix.of fun i j =>
    if j = 3 then m i 0 * x + m i 1 * y + m i 2 * z + m i 3 else m i j

/-- The parallel projection installed by `cogl_ortho` (replaces the
current projection matrix). -/
def cogl_ortho (l r b t n f : ℚ) : CoglMatrix :=
  !![2 / (r - l), 0, 0, -(r + l) / (r - l);
     0, 2 / (t - b), 0, -(t + b) / (t - b);
     0, 0, -2 / (f - n), -(f + n) / (f - n);
     0, 0, 0, 1]

/-- Truncation toward zero: the conversion applied when a C `gfloat` is
passed for an `int` parameter. -/
def cTrunc (q : ℚ) : ℤ := if 0 ≤ q then ⌊q⌋ else ⌈q⌉

structure Viewport where
  x : ℚ
  y : ℚ
  w : ℚ
  h : ℚ
deriving DecidableEq

/-- One external camera as read from the stage: a viewport rectangle and
a monotonically bumped `age` counter (`ClutterCamera`). -/
structure ClutterCamera where
  viewport : Viewport
  age : ℤ
deriving DecidableEq

/-- An actor's paint box (screen-space bounding box), `ClutterActorBox`. -/
structure ActorBox where
  x1 : ℚ
  y1 : ℚ
  x2 : ℚ
  y2 : ℚ
deriving DecidableEq

/-- Transcription of `PerCameraState`.  The entry keeps the camera it
was built for; since the camera array is indexed by position and
`camera->index` equals that position, the stored pointer is rendered as
the camera's index. -/
structure PerCameraState where
  cameraIdx : Nat
  validForAge : ℤ
  offscreen : Option CoglHandle
  pipeline : Option CoglHandle
  texture : Option CoglHandle
  viewportXOffset : ℚ
  viewportYOffset : ℚ
  requestWidth : ℤ
  requestHeight : ℤ
  lastMatrixDrawn : CoglMatrix

/-- Transcription of `ClutterOffscreenEffectPrivate` plus the ActorMeta
state the code reads through `clutter_actor_meta_get_enabled` /
`clutter_actor_meta_get_actor` (`enabled`, `attached`). -/
structure OffscreenEffectPriv where
  enabled : Bool
  attached : Bool
  cameraState : List PerCameraState
  camerasAge : ℤ
  oldOpacityOverride : ℤ

/-- Stage state read by the effect: the camera set with its generation
counter (`cameras_age`), the index of the camera currently being
painted, the stage projection matrix and the stage actor's size. -/
structure ClutterStageSt where
  cameras : List ClutterCamera
  camerasAge : ℤ
  current : Nat
  projection : CoglMatrix
  width : ℚ
  height : ℚ

/-- Actor state read/written by the effect: the paint box collaborator
query (`none` when unavailable), the opacity override slot and the
paint opacity. -/
structure ActorSt where
  paintBox : Option ActorBox
  opacityOverride : ℤ
  paintOpacity : ℤ

/-- Matrix/viewport state a framebuffer owns in Cogl, saved on
`cogl_push_framebuffer` and restored on `cogl_pop_framebuffer`. -/
structure FbFrame where
  fb : Option CoglHandle
  modelview : CoglMatrix
  mvStack : List CoglMatrix
  projection : CoglMatrix
  viewport : Viewport

/-- The Cogl context: handle allocator and reference counts, texture
sizes, current framebuffer and its matrix state, environment flags for
allocation success and GLSL support, and instrumentation counters
(warnings emitted, actor-subtree paint passes, compositing blits). -/
structure CoglCtx where
  nextId : Nat
  ref : Nat → Nat
  texSize : Nat → ℤ × ℤ
  curFb : Option CoglHandle
  modelview : CoglMatrix
  mvStack : List CoglMatrix
  projection : CoglMatrix
  viewport : Viewport
  fbStack : List FbFrame
  texAllocOk : Bool
  fboAllocOk : Bool
  glslOk : Bool
  warnings : Nat
  subtreePaints : Nat
  blits : Nat

/-- The whole system acted on by the offscreen effect: Cogl context,
stage, target actor, the effect's private state and the junk record
modelling uninitialized slice memory. -/
structure Sys where
  cogl : CoglCtx
  stage : ClutterStageSt
  actor : ActorSt
  eff : OffscreenEffectPriv
  junk : PerCameraState

def coglUnref (h : CoglHandle) (c : CoglCtx) : CoglCtx :=
  { c with ref := fun x => if x = h then c.ref x - 1 else c.ref x }

/-- Allocation of a fresh Cogl object: a new handle with one reference. -/
def coglAlloc (c : CoglCtx) : CoglHandle × CoglCtx :=
  (c.nextId,
   { c with
     nextId := c.nextId + 1,
     ref := fun x => if x = c.nextId then 1 else c.ref x })

def defaultCamera : ClutterCamera :=
  { viewport := { x := 0, y := 0, w := 0, h := 0 }, age := 0 }

def camIndex (s : Sys) : Nat := s.stage.current

def currentCamera (s : Sys) : ClutterCamera :=
  s.stage.cameras.getD s.stage.current defaultCamera

/-- The current age of the i-th stage camera (`camera->age`). -/
def camAge (s : Sys) (i : Nat) : ℤ :=
  (s.stage.cameras.getD i defaultCamera).age

def entryAt (s : Sys) (i : Nat) : PerCameraState :=
  s.eff.cameraState.getD i s.junk

def writeEntry (s : Sys) (i : Nat) (e : PerCameraState) : Sys :=
  { s with eff.cameraState := s.eff.cameraState.set i e }

/-- Transcription of `invalidate_per_camera_state`: release the pipeline
and the offscreen buffer (one unref each) and null the two fields.  The
texture field is untouched, exactly as in the source. -/
def invalidate_per_camera_state (e : PerCameraState) (c : CoglCtx) :
    PerCameraState × CoglCtx :=
  let pc : PerCameraState × CoglCtx :=
    match e.pipeline with
    | some p => ({ e with pipeline := none }, coglUnref p c)
    | none => (e, c)
  match pc.1.offscreen with
  | some o => ({ pc.1 with offscreen := none }, coglUnref o pc.2)
  | none => pc

/-- A freshly slice-allocated entry as initialized by the rebuild loop
in `get_per_camera_state`: the camera pointer is set and the three
handle fields nulled; every other field keeps the junk the allocator
returned. -/
def freshCameraState (jk : PerCameraState) (i : Nat) : PerCameraState :=
  { jk with cameraIdx := i, pipeline := none, texture := none, offscreen := none }

/-- Transcription of `get_per_camera_state`: on a stale cameras-age the
whole per-camera array is invalidated (pipeline and offscreen of every
entry released), freed and reallocated at the current camera count;
then the requested entry is invalidated in place if its camera's age
moved on. -/
def get_per_camera_state (s : Sys) (i : Nat) : Sys :=
  let s :=
    if s.stage.camerasAge ≠ s.eff.camerasAge then
      let c := s.eff.cameraState.foldl
        (fun c e => (invalidate_per_camera_state e c).2) s.cogl
      let n := s.stage.cameras.length
      { s with
        cogl := c,
        eff := { s.eff with
          cameraState := (List.range n).map (freshCameraState s.junk),
          camerasAge := s.stage.camerasAge } }
    else s
  let e := entryAt s i
  if camAge s e.cameraIdx ≠ e.validForAge then
    let ec := invalidate_per_camera_state e s.cogl
    writeEntry { s with cogl := ec.2 } i
      { ec.1 with validForAge := camAge s e.cameraIdx }
  else s

/-- Transcription of `clutter_offscreen_effect_real_create_texture` (the
default `create_texture` virtual): `cogl_texture_new_with_size` with
the sizes clamped to at least 1; returns no handle when the driver
fails to allocate (environment flag `texAllocOk`). -/
def clutter_offscreen_effect_real_create_texture (c : CoglCtx) (w h : ℤ) :
    Option CoglHandle × CoglCtx :=
  if c.texAllocOk then
    let tc := coglAlloc c
    (some tc.1,
     { tc.2 with
       texSize := fun x => if x = tc.1 then (max w 1, max h 1) else tc.2.texSize x })
  else (none, c)

/-- Transcription of `update_fbo`.  The pipeline is created on first
use; an existing texture is released before a new one is requested from
`create_texture`; the offscreen buffer wrapping the texture is rebuilt;
on offscreen failure a warning is emitted, the pipeline released and
the request sizes zeroed. -/
def update_fbo (s : Sys) (i : Nat) (rw rh : ℤ) : Bool × Sys :=
  let s := get_per_camera_state s i
  let e := entryAt s i
  if e.requestWidth = rw ∧ e.requestHeight = rh ∧ e.offscreen ≠ none then
    (true, s)
  else
    let es1 : PerCameraState × Sys :=
      match e.pipeline with
      | none =>
        let pc := coglAlloc s.cogl
        ({ e with pipeline := some pc.1 }, { s with cogl := pc.2 })
      | some _ => (e, s)
    let es2 : PerCameraState × Sys :=
      match es1.1.texture with
      | some t => ({ es1.1 with texture := none },
                   { es1.2 with cogl := coglUnref t es1.2.cogl })
      | none => es1
    match clutter_offscreen_effect_real_create_texture es2.2.cogl rw rh with
    | (none, c) => (false, writeEntry { es2.2 with cogl := c } i es2.1)
    | (some t, c) =>
      let s := { es2.2 with cogl := c }
      let e := { es2.1 with texture := some t, requestWidth := rw, requestHeight := rh }
      let s :=
        match e.offscreen with
        | some o => { s with cogl := coglUnref o s.cogl }
        | none => s
      if s.cogl.fboAllocOk then
        let oc := coglAlloc s.cogl
        (true, writeEntry { s with cogl := oc.2 } i { e with offscreen := some oc.1 })
      else
        let s := { s with cogl := { s.cogl with warnings := s.cogl.warnings + 1 } }
        let es3 : PerCameraState × Sys :=
          match e.pipeline with
          | some p => ({ e with pipeline := none },
                       { s with cogl := coglUnref p s.cogl })
          | none => (e, s)
        (false, writeEntry es3.2 i
          { es3.1 with offscreen := none, requestWidth := 0, requestHeight := 0 })

def cogl_push_matrix (s : Sys) : Sys :=
  { s with cogl.mvStack := s.cogl.modelview :: s.cogl.mvStack }

def cogl_pop_matrix (s : Sys) : Sys :=
  match s.cogl.mvStack with
  | [] => s
  | m :: rest =>
    { s with cogl := { s.cogl with modelview := m, mvStack := rest } }

def cogl_push_framebuffer (s : Sys) (h : Option CoglHandle) : Sys :=
  { s with cogl := { s.cogl with
      fbStack := { fb := s.cogl.curFb, modelview := s.cogl.modelview,
                   mvStack := s.cogl.mvStack, projection := s.cogl.projection,
                   viewport := s.cogl.viewport } :: s.cogl.fbStack,
      curFb := h } }

def cogl_pop_framebuffer (s : Sys) : Sys :=
  match s.cogl.fbStack with
  | [] => s
  | f :: rest =>
    { s with cogl := { s.cogl with
        curFb := f.fb, modelview := f.modelview, mvStack := f.mvStack,
        projection := f.projection, viewport := f.viewport, fbStack := rest } }

def texWidth (s : Sys) (t : Option CoglHandle) : ℤ :=
  match t with
  | some h => (s.cogl.texSize h).1
  | none => 0

def texHeight (s : Sys) (t : Option CoglHandle) : ℤ :=
  match t with
  | some h => (s.cogl.texSize h).2
  | none => 0

/-- Transcription of `clutter_offscreen_effect_pre_paint`: precondition
checks (effect enabled, actor attached), paint-box / fallback sizing,
`update_fbo`, modelview snapshot into `last_matrix_drawn`, redirection
to the offscreen buffer, viewport expansion with proportional
projection rescale, clear, matrix push, and the opacity override
save-and-set. -/
def clutter_offscreen_effect_pre_paint (s : Sys) : Bool × Sys :=
  if s.eff.enabled = false then (false, s)
  else if s.eff.attached = false then (false, s)
  else
    let cam := currentCamera s
    let s := get_per_camera_state s (camIndex s)
    let sv := cam.viewport
    let box :=
      match s.actor.paintBox with
      | some b => (b.x2 - b.x1, b.y2 - b.y1, b.x1 - sv.x, b.y1 - sv.y)
      | none => (sv.w, sv.h, 0, 0)
    let e0 := entryAt s (camIndex s)
    let s := writeEntry s (camIndex s)
      { e0 with viewportXOffset := box.2.2.1, viewportYOffset := box.2.2.2 }
    let os := update_fbo s (camIndex s) (cTrunc box.1) (cTrunc box.2.1)
    if os.1 = false then (false, os.2)
    else
      let s := os.2
      let e := entryAt s (camIndex s)
      let tw := texWidth s e.texture
      let th := texHeight s e.texture
      let s := writeEntry s (camIndex s) { e with lastMatrixDrawn := s.cogl.modelview }
      let e := entryAt s (camIndex s)
      let s := cogl_push_framebuffer s e.offscreen
      let s := { s with cogl.modelview := e.lastMatrixDrawn }
      let xexpand := if e.viewportXOffset < 0 then -e.viewportXOffset else 0
      let xexpand :=
        if e.viewportXOffset + (tw : ℚ) > sv.w then
          max xexpand (e.viewportXOffset + (tw : ℚ) - sv.w)
        else xexpand
      let yexpand := if e.viewportYOffset < 0 then -e.viewportYOffset else 0
      let yexpand :=
        if e.viewportYOffset + (th : ℚ) > sv.h then
          max yexpand (e.viewportYOffset + (th : ℚ) - sv.h)
        else yexpand
      let vp : Viewport :=
        { x := -(e.viewportXOffset + xexpand), y := -(e.viewportYOffset + yexpand),
          w := sv.w + 2 * xexpand, h := sv.h + 2 * yexpand }
      let s := { s with cogl.viewport := vp }
      let projection := s.stage.projection
      let projection :=
        if 0 < xexpand ∨ 0 < yexpand then
          cogl_matrix_scale projection
            (sv.w / (sv.w + 2 * xexpand)) (sv.h / (sv.h + 2 * yexpand)) 1
        else projection
      let s := { s with cogl.projection := projection }
      let s := cogl_push_matrix s
      let s := { s with eff.oldOpacityOverride := s.actor.opacityOverride }
      let s := { s with actor.opacityOverride := 0xff }
      (true, s)

/-- Transcription of `clutter_offscreen_effect_real_paint_target` (the
default `paint_target` virtual): fetch the per-camera state, set the
compositing pipeline's color from the actor's paint opacity (the
pipeline color is not otherwise observable here and is not recorded)
and draw the textured quad — the compositing blit, counted by `blits`. -/
def clutter_offscreen_effect_real_paint_target (s : Sys) : Sys :=
  let s := get_per_camera_state s (camIndex s)
  { s with cogl.blits := s.cogl.blits + 1 }

/-- Transcription of `clutter_offscreen_effect_paint_texture`: save the
projection, switch to an orthographic stage projection, push the
modelview, install the translate/scale placing the texture at the
stored viewport offset, delegate to `paint_target`, pop the modelview
and restore the projection. -/
def clutter_offscreen_effect_paint_texture (s : Sys) : Sys :=
  let s := get_per_camera_state s (camIndex s)
  let e := entryAt s (camIndex s)
  let cam := currentCamera s
  let saved := s.cogl.projection
  let ortho := cogl_ortho 0 s.stage.width s.stage.height 0 (-1) 100
  let s := { s with cogl.projection := ortho }
  let s := cogl_push_matrix s
  let scaleX := s.stage.width / cam.viewport.w
  let scaleY := s.stage.height / cam.viewport.h
  let m := cogl_matrix_scale
    (cogl_matrix_translate 1 (e.viewportXOffset * scaleX) (e.viewportYOffset * scaleY) 0)
    scaleX scaleY 1
  let s := { s with cogl.modelview := m }
  let s := clutter_offscreen_effect_real_paint_target s
  let s := cogl_pop_matrix s
  { s with cogl.projection := saved }

/-- Transcription of `clutter_offscreen_effect_post_paint`: bail out
when the entry has no offscreen buffer or pipeline or the actor is
detached; otherwise restore the opacity override, pop the modelview and
the framebuffer, and composite the texture. -/
def clutter_offscreen_effect_post_paint (s : Sys) : Sys :=
  let s := get_per_camera_state s (camIndex s)
  let e := entryAt s (camIndex s)
  if e.offscreen = none ∨ e.pipeline = none ∨ s.eff.attached = false then s
  else
    let s := { s with actor.opacityOverride := s.eff.oldOpacityOverride }
    let s := cogl_pop_matrix s
    let s := cogl_pop_framebuffer s
    clutter_offscreen_effect_paint_texture s

/-- Modelled from the spec: the `ClutterEffect` base-class `paint`
implementation this file chains up to is not part of this tree; per
spec sections 4.2 and 6 it runs `pre_paint`, then the actor subtree
paints (the PAINTING stage, counted by `subtreePaints`; redirected into
the offscreen buffer when `pre_paint` succeeded, direct otherwise), and
`post_paint` runs only when `pre_paint` succeeded. -/
def clutter_effect_parent_paint (s : Sys) : Sys :=
  let os := clutter_offscreen_effect_pre_paint s
  let s := { os.2 with cogl.subtreePaints := os.2.cogl.subtreePaints + 1 }
  if os.1 then clutter_offscreen_effect_post_paint s else s

/-- Transcription of `clutter_offscreen_effect_paint`: reuse the cached
texture (compositing blit only) when the buffer exists, the caller did
not flag the actor dirty, the modelview equals `last_matrix_drawn` and
the entry is valid for the camera's current age; otherwise chain up to
repaint and then record the camera age. -/
def clutter_offscreen_effect_paint (dirty : Bool) (s : Sys) : Sys :=
  let s := get_per_camera_state s (camIndex s)
  let e := entryAt s (camIndex s)
  let matrix := s.cogl.modelview
  if e.offscreen = none ∨ dirty = true ∨ matrix ≠ e.lastMatrixDrawn ∨
      e.validForAge ≠ camAge s e.cameraIdx then
    let s := clutter_effect_parent_paint s
    let e2 := entryAt s (camIndex s)
    writeEntry s (camIndex s) { e2 with validForAge := camAge s e2.cameraIdx }
  else
    clutter_offscreen_effect_paint_texture s

/-- Transcription of `clutter_blur_effect_pre_paint`: enabled and
attached preconditions, then the GLSL feature check — on missing GLSL
support a warning is emitted and the ActorMeta is forcibly disabled
(the enabled flag itself is the ActorMeta state modelled from the
spec's precondition contract) — otherwise chain up to the offscreen
effect's `pre_paint`. -/
def clutter_blur_effect_pre_paint (s : Sys) : Bool × Sys :=
  if s.eff.enabled = false then (false, s)
  else if s.eff.attached = false then (false, s)
  else if s.cogl.glslOk = false then
    (false, { s with
      cogl := { s.cogl with warnings := s.cogl.warnings + 1 },
      eff := { s.eff with enabled := false } })
  else clutter_offscreen_effect_pre_paint s

/-- The kernel radius derived in `clutter_blur_effect_set_sigma_real`:
`radius = floorf (ceilf (6 * sigma) / 2.0f)`. -/
def blurRadius (sigma : ℚ) : ℤ := ⌊((⌈6 * sigma⌉ : ℤ) : ℚ) / 2⌋

/-- One unnormalized Gaussian sample as computed in
`clutter_blur_effect_set_sigma_real`:
`powf (G_E, -(i*i) / (2*sigma*sigma)) / sqrtf (2*G_PI*sigma*sigma)`. -/
noncomputable def gaussWeight (sigma : ℚ) (i : ℤ) : ℝ :=
  Real.exp (-((i : ℝ) * (i : ℝ)) / (2 * (sigma : ℝ) * (sigma : ℝ))) /
    Real.sqrt (2 * Real.pi * (sigma : ℝ) * (sigma : ℝ))

/-- The weight array filled by `clutter_blur_effect_set_sigma_real`:
index `j` holds the sample for offset `i = j - radius`; when the radius
is zero the single entry is `1.0`, otherwise the samples are
renormalized by their sum. -/
noncomputable def blurFactors (sigma : ℚ) (radius : ℤ) : List ℝ :=
  if radius = 0 then [1]
  else
    let raw := (List.range (2 * radius + 1).toNat).map
      (fun (j : Nat) => gaussWeight sigma ((j : ℤ) - radius))
    raw.map (fun f => f / raw.sum)

/-- The per-class pipeline cache of `ClutterBlurEffectClass`
(`radius → compiled base pipeline`); `g_hash_table_insert` replaces, so
a prepended entry shadowing is looked up first. -/
structure BlurClassState where
  pipeline_cache : List (ℤ × CoglHandle)

/-- Cogl state seen by the blur effect: the handle allocator with
reference counts, plus per-pipeline uniform values (the `factors`
array and the 2-component `pixel_step`). -/
structure BlurCogl where
  nextId : Nat
  ref : Nat → Nat
  factorsUniform : Nat → List ℝ
  pixelStep : Nat → ℚ × ℚ

/-- Instance state of `ClutterBlurEffect` that the sigma/kernel path
touches (textures and fbo handles included for the post-paint plumbing,
though only the pipeline bookkeeping matters to the claims here). -/
structure ClutterBlurEffectSt where
  sigma : ℚ
  radius : ℤ
  tex_width : ℤ
  tex_height : ℤ
  vertical_texture_dirty : Bool
  horizontal_texture : Option CoglHandle
  vertical_texture : Option CoglHandle
  vertical_fbo : Option CoglHandle
  horizontal_pipeline : Option CoglHandle
  vertical_pipeline : Option CoglHandle

def blurUnrefOpt (h : Option CoglHandle) (w : BlurCogl) : BlurCogl :=
  match h with
  | some p => { w with ref := fun x => if x = p then w.ref x - 1 else w.ref x }
  | none => w

def blurAlloc (w : BlurCogl) : CoglHandle × BlurCogl :=
  (w.nextId,
   { w with
     nextId := w.nextId + 1,
     ref := fun x => if x = w.nextId then 1 else w.ref x })

/-- `g_hash_table_lookup` on the radius-keyed pipeline cache. -/
def lookupRadius (cache : List (ℤ × CoglHandle)) (r : ℤ) : Option CoglHandle :=
  match cache.find? (fun p => p.1 = r) with
  | some p => some p.2
  | none => none

/-- Transcription of `get_blur_pipeline`: return the cached base
pipeline for this radius, or generate the unrolled convolution snippet,
compile a fresh base pipeline and insert it under the radius key.  The
generated GLSL text itself is not otherwise observed and is not
recorded. -/
def get_blur_pipeline (k : BlurClassState) (w : BlurCogl) (radius : ℤ) :
    CoglHandle × BlurClassState × BlurCogl :=
  match lookupRadius k.pipeline_cache radius with
  | some p => (p, k, w)
  | none =>
    let pw := blurAlloc w
    (pw.1, { k with pipeline_cache := (radius, pw.1) :: k.pipeline_cache }, pw.2)

/-- Transcription of `update_horizontal_pipeline_texture`: bind the
horizontal texture as the pipeline's layer texture (the binding is
Cogl-internal) and set `pixel_step = (1 / tex_width, 0)`. -/
def update_horizontal_pipeline_texture (self : ClutterBlurEffectSt) (w : BlurCogl) :
    BlurCogl :=
  match self.horizontal_pipeline with
  | some h =>
    { w with pixelStep := fun x =>
        if x = h then ((1 : ℚ) / (self.tex_width : ℚ), 0) else w.pixelStep x }
  | none => w

/-- Transcription of `update_vertical_pipeline_texture`:
`pixel_step = (0, 1 / tex_height)` on the vertical pipeline. -/
def update_vertical_pipeline_texture (self : ClutterBlurEffectSt) (w : BlurCogl) :
    BlurCogl :=
  match self.vertical_pipeline with
  | some h =>
    { w with pixelStep := fun x =>
        if x = h then (0, (1 : ℚ) / (self.tex_height : ℚ)) else w.pixelStep x }
  | none => w

def setFactorsUniform (h : Option CoglHandle) (f : List ℝ) (w : BlurCogl) : BlurCogl :=
  match h with
  | some p => { w with factorsUniform := fun x => if x = p then f else w.factorsUniform x }
  | none => w

/-- Transcription of `clutter_blur_effect_set_sigma_real`: no-op on an
unchanged sigma; derive the radius; when the radius changed, release
both convolution pipelines; when absent, copy the class's cached base
pipeline for this radius into fresh horizontal/vertical pipelines
(uniform locations are keyed by handle here; the blend-string tweak is
Cogl-internal); compute the weight array, upload it to both pipelines,
store sigma and radius and mark the intermediate texture dirty. -/
noncomputable def clutter_blur_effect_set_sigma_real
    (k : BlurClassState) (w : BlurCogl) (self : ClutterBlurEffectSt) (sigma : ℚ) :
    ClutterBlurEffectSt × BlurClassState × BlurCogl :=
  if self.sigma = sigma then (self, k, w)
  else
    let radius := blurRadius sigma
    let sw1 : ClutterBlurEffectSt × BlurCogl :=
      if self.horizontal_pipeline ≠ none ∧ radius ≠ self.radius then
        let w := blurUnrefOpt self.horizontal_pipeline w
        let w := blurUnrefOpt self.vertical_pipeline w
        ({ self with horizontal_pipeline := none, vertical_pipeline := none }, w)
      else (self, w)
    let skw : ClutterBlurEffectSt × BlurClassState × BlurCogl :=
      if sw1.1.horizontal_pipeline = none then
        let bkw := get_blur_pipeline k sw1.2 radius
        let hp := blurAlloc bkw.2.2
        let self2 := { sw1.1 with horizontal_pipeline := some hp.1 }
        let w2 := update_horizontal_pipeline_texture self2 hp.2
        let vp := blurAlloc w2
        let self3 := { self2 with vertical_pipeline := some vp.1 }
        let w3 := update_vertical_pipeline_texture self3 vp.2
        (self3, bkw.2.1, w3)
      else (sw1.1, k, sw1.2)
    let factors := blurFactors sigma radius
    let w := setFactorsUniform skw.1.horizontal_pipeline factors skw.2.2
    let w := setFactorsUniform skw.1.vertical_pipeline factors w
    ({ skw.1 with sigma := sigma, radius := radius, vertical_texture_dirty := true },
     skw.2.1, w)

/-- The shader type of a `ClutterShaderEffect`. -/
inductive ShaderType where
  | fragment
  | vertex
deriving DecidableEq

/-- Cogl state seen by the shader effect: allocator, the declarations
text of created snippets and the snippets attached to each pipeline. -/
structure ShaderCogl where
  nextId : Nat
  snippetSrc : Nat → String
  pipeSnippets : Nat → List Nat

/-- Instance state of `ClutterShaderEffect` touched by
`set_shader_source`: the lazily created pipeline and the write-once
snippet. -/
structure ClutterShaderEffectSt where
  shader_type : ShaderType
  pipeline : Option CoglHandle
  snippet : Option CoglHandle

/-- Transcription of `clutter_shader_effect_create_snippet`: a fresh
snippet whose declarations wrap the source to rename its `main` (the
fragment/vertex hook choice is Cogl-internal dispatch). -/
def clutter_shader_effect_create_snippet
    (w : ShaderCogl) (source : String) : CoglHandle × ShaderCogl :=
  let wrapped := "#define main clutter_shader_effect_main\n" ++ source ++ "\n#undef main\n"
  (w.nextId,
   { w with
     nextId := w.nextId + 1,
     snippetSrc := fun x => if x = w.nextId then wrapped else w.snippetSrc x })

/-- Transcription of `clutter_shader_effect_ensure_pipeline`: create the
pipeline on first use. -/
def clutter_shader_effect_ensure_pipeline
    (w : ShaderCogl) (e : ClutterShaderEffectSt) : ShaderCogl × ClutterShaderEffectSt :=
  match e.pipeline with
  | none => ({ w with nextId := w.nextId + 1 }, { e with pipeline := some w.nextId })
  | some _ => (w, e)

def addSnippetToPipe (w : ShaderCogl) (p : Option CoglHandle) (sn : CoglHandle) :
    ShaderCogl :=
  match p with
  | some h =>
    { w with pipeSnippets := fun x =>
        if x = h then w.pipeSnippets h ++ [sn] else w.pipeSnippets x }
  | none => w

/-- Transcription of `clutter_shader_effect_set_shader_source`: reject a
NULL/empty source (`g_return_val_if_fail`); succeed without effect when
a snippet is already installed; otherwise ensure the pipeline, create
the snippet from the source and attach it. -/
def clutter_shader_effect_set_shader_source
    (w : ShaderCogl) (e : ClutterShaderEffectSt) (source : String) :
    Bool × ShaderCogl × ClutterShaderEffectSt :=
  if source = "" then (false, w, e)
  else if e.snippet ≠ none then (true, w, e)
  else
    let we := clutter_shader_effect_ensure_pipeline w e
    let sn := clutter_shader_effect_create_snippet we.1 source
    let w := addSnippetToPipe sn.2 we.2.pipeline sn.1
    (true, w, { we.2 with snippet := some sn.1 })

theorem getD_set_self {α : Type _} (l : List α) (i : Nat) (a d : α)
    (h : i < l.length) : (l.set i a).getD i d = a := by
  induction l generalizing i with
  | nil => simp at h
  | cons x t ih =>
    cases i with
    | zero => simp
    | succ n => simpa using ih n (by simpa using h)

/-- When the effect's cameras-age matches the stage's and the entry is
valid for its camera's current age, `get_per_camera_state` does not
change the state at all. -/
theorem get_per_camera_state_noop (s : Sys) (i : Nat)
    (hgen : s.stage.camerasAge = s.eff.camerasAge)
    (hage : camAge s (entryAt s i).cameraIdx = (entryAt s i).validForAge) :
    get_per_camera_state s i = s := by
  unfold get_per_camera_state
  simp [hgen, hage]

/-- Claim C6: with the camera-state array in sync (no pending
generation rebuild or age invalidation), a non-null offscreen buffer
and a request equal to the stored `request_width/height` make
`update_fbo` a successful no-op: the whole state — in particular the
offscreen buffer, texture and pipeline handles of the entry — is
returned unchanged, and nothing is allocated or released. -/
theorem update_fbo_warm_noop (s : Sys) (i : Nat) (rw rh : ℤ)
    (hgen : s.stage.camerasAge = s.eff.camerasAge)
    (hage : camAge s (entryAt s i).cameraIdx = (entryAt s i).validForAge)
    (hw : (entryAt s i).requestWidth = rw)
    (hh : (entryAt s i).requestHeight = rh)
    (ho : (entryAt s i).offscreen ≠ none) :
    update_fbo s i rw rh = (true, s) := by
  unfold update_fbo
  rw [get_per_camera_state_noop s i hgen hage]
  simp [hw, hh, ho]

def junkE : PerCameraState :=
  { cameraIdx := 0, validForAge := 5, offscreen := none, pipeline := none,
    texture := none, viewportXOffset := 0, viewportYOffset := 0,
    requestWidth := 0, requestHeight := 0, lastMatrixDrawn := 1 }

def warmE : PerCameraState :=
  { cameraIdx := 0, validForAge := 5, offscreen := some 2, pipeline := some 0,
    texture := some 1, viewportXOffset := 50, viewportYOffset := 50,
    requestWidth := 100, requestHeight := 100, lastMatrixDrawn := 1 }

def vpStage : Viewport := { x := 0, y := 0, w := 800, h := 600 }

def cam5 : ClutterCamera := { viewport := vpStage, age := 5 }

def stageOne : ClutterStageSt :=
  { cameras := [cam5], camerasAge := 0, current := 0, projection := 1,
    width := 800, height := 600 }

def coglWarm : CoglCtx :=
  { nextId := 3, ref := fun x => if x < 3 then 1 else 0,
    texSize := fun _ => (100, 100), curFb := none, modelview := 1,
    mvStack := [], projection := 1, viewport := vpStage, fbStack := [],
    texAllocOk := true, fboAllocOk := true, glslOk := true,
    warnings := 0, subtreePaints := 0, blits := 0 }

def actorBase : ActorSt :=
  { paintBox := some { x1 := 50, y1 := 50, x2 := 150, y2 := 150 },
    opacityOverride := -1, paintOpacity := 255 }

def sysWarm : Sys :=
  { cogl := coglWarm, stage := stageOne, actor := actorBase,
    eff := { enabled := true, attached := true, cameraState := [warmE],
             camerasAge := 0, oldOpacityOverride := 0 },
    junk := junkE }

theorem update_fbo_warm_noop_witness :
    update_fbo sysWarm 0 100 100 = (true, sysWarm) :=
  update_fbo_warm_noop sysWarm 0 100 100 rfl (by decide) (by decide) (by decide)
    (by decide)

def coglFresh : CoglCtx :=
  { coglWarm with nextId := 0, ref := fun _ => 0 }

def sysFresh : Sys :=
  { sysWarm with
    cogl := coglFresh,
    eff := { sysWarm.eff with cameraState := [junkE] } }

def sysFboFail : Sys :=
  { sysFresh with cogl := { coglFresh with fboAllocOk := false } }

/-- Claim C4, counterexample: with a fresh entry and a failing
offscreen-buffer allocation, `update_fbo` reports failure but the
just-created texture handle is left stored in the entry — the entry's
GPU-handle fields are not all null after the failure. -/
theorem update_fbo_failure_counterexample :
    (update_fbo sysFboFail 0 10 10).1 = false ∧
    (entryAt (update_fbo sysFboFail 0 10 10).2 0).texture = some 1 := by
  decide

theorem update_fbo_fail_any (s : Sys) (i : Nat) (rw rh : ℤ)
    (hgen : s.stage.camerasAge = s.eff.camerasAge)
    (hage : camAge s (entryAt s i).cameraIdx = (entryAt s i).validForAge)
    (hoff : (entryAt s i).offscreen = none)
    (hpipe : (entryAt s i).pipeline = none)
    (htex : (entryAt s i).texture = none)
    (hfail : s.cogl.texAllocOk = false ∨ s.cogl.fboAllocOk = false) :
    (update_fbo s i rw rh).1 = false := by
  unfold update_fbo
  rw [get_per_camera_state_noop s i hgen hage]
  rcases hfail with hT | hF
  · simp [hoff, hpipe, htex, clutter_offscreen_effect_real_create_texture,
      coglAlloc, hT]
  · cases hT : s.cogl.texAllocOk with
    | false =>
      simp [hoff, hpipe, htex, clutter_offscreen_effect_real_create_texture,
        coglAlloc, hT]
    | true =>
      simp [hoff, hpipe, htex, clutter_offscreen_effect_real_create_texture,
        coglAlloc, hT, hF]

theorem entryAt_writeEntry (s : Sys) (i : Nat) (e : PerCameraState)
    (h : i < s.eff.cameraState.length) : entryAt (writeEntry s i e) i = e := by
  simp [entryAt, writeEntry, getD_set_self, h]

@[simp] theorem camIndex_writeEntry (s : Sys) (i : Nat) (e : PerCameraState) :
    camIndex (writeEntry s i e) = camIndex s := rfl

@[simp] theorem cogl_writeEntry (s : Sys) (i : Nat) (e : PerCameraState) :
    (writeEntry s i e).cogl = s.cogl := rfl

theorem stage_writeEntry (s : Sys) (i : Nat) (e : PerCameraState) :
    (writeEntry s i e).stage = s.stage := rfl

theorem effAge_writeEntry (s : Sys) (i : Nat) (e : PerCameraState) :
    (writeEntry s i e).eff.camerasAge = s.eff.camerasAge := rfl

theorem update_fbo_fail_after_offsets (s : Sys) (i : Nat) (vx vy : ℚ) (rw rh : ℤ)
    (hgen : s.stage.camerasAge = s.eff.camerasAge)
    (hage : camAge s (entryAt s i).cameraIdx = (entryAt s i).validForAge)
    (hlen : i < s.eff.cameraState.length)
    (hoff : (entryAt s i).offscreen = none)
    (hpipe : (entryAt s i).pipeline = none)
    (htex : (entryAt s i).texture = none)
    (hfail : s.cogl.texAllocOk = false ∨ s.cogl.fboAllocOk = false) :
    (update_fbo
      (writeEntry s i
        { entryAt s i with viewportXOffset := vx, viewportYOffset := vy })
      i rw rh).1 = false := by
  have hw := entryAt_writeEntry s i
    { entryAt s i with viewportXOffset := vx, viewportYOffset := vy } hlen
  apply update_fbo_fail_any
  · exact hgen
  · rw [hw]; exact hage
  · rw [hw]; exact hoff
  · rw [hw]; exact hpipe
  · rw [hw]; exact htex
  · exact hfail

/-- Claim C4 (amended): when texture creation or offscreen-buffer
creation fails inside `update_fbo`, failure is reported and `pre_paint`
returns false, skipping the frame's redirection.  On offscreen failure
a diagnostic is emitted, the pipeline is released and nulled, the
request sizes are zeroed and the offscreen field is left null (which is
what makes the next frame retry), while the just-created texture stays
stored in the entry (to be released on the next attempt).  On texture
failure no diagnostic is emitted and the pipeline — just created on a
fresh entry, or preexisting on a warm one — stays stored; on a fresh
entry the offscreen field is null, but on a warm entry whose requested
size changed the stale offscreen buffer and the old request sizes are
kept (only the old texture is released and its field nulled), and the
next frame retries the changed size because it still differs from the
stored one: an immediate identical request fails the same way rather
than hitting the reuse guard. -/
theorem update_fbo_failure_spec (s : Sys) (i : Nat) (rw rh : ℤ)
    (hi : i = camIndex s)
    (hgen : s.stage.camerasAge = s.eff.camerasAge)
    (hage : camAge s (entryAt s i).cameraIdx = (entryAt s i).validForAge)
    (hlen : i < s.eff.cameraState.length) :
    ((entryAt s i).offscreen = none → (entryAt s i).pipeline = none →
      (entryAt s i).texture = none → s.cogl.texAllocOk = false →
      (update_fbo s i rw rh).1 = false ∧
      (update_fbo s i rw rh).2.cogl.warnings = s.cogl.warnings ∧
      (entryAt (update_fbo s i rw rh).2 i).pipeline = some s.cogl.nextId ∧
      (entryAt (update_fbo s i rw rh).2 i).texture = none ∧
      (entryAt (update_fbo s i rw rh).2 i).offscreen = none) ∧
    ((entryAt s i).offscreen = none → (entryAt s i).pipeline = none →
      (entryAt s i).texture = none →
      s.cogl.texAllocOk = true → s.cogl.fboAllocOk = false →
      (update_fbo s i rw rh).1 = false ∧
      (update_fbo s i rw rh).2.cogl.warnings = s.cogl.warnings + 1 ∧
      (entryAt (update_fbo s i rw rh).2 i).pipeline = none ∧
      (entryAt (update_fbo s i rw rh).2 i).offscreen = none ∧
      (entryAt (update_fbo s i rw rh).2 i).texture = some (s.cogl.nextId + 1) ∧
      (entryAt (update_fbo s i rw rh).2 i).requestWidth = 0 ∧
      (entryAt (update_fbo s i rw rh).2 i).requestHeight = 0) ∧
    (∀ o p t : CoglHandle,
      (entryAt s i).offscreen = some o → (entryAt s i).pipeline = some p →
      (entryAt s i).texture = some t → (entryAt s i).requestWidth ≠ rw →
      s.cogl.texAllocOk = false →
      (update_fbo s i rw rh).1 = false ∧
      (update_fbo s i rw rh).2.cogl.warnings = s.cogl.warnings ∧
      (entryAt (update_fbo s i rw rh).2 i).pipeline = some p ∧
      (entryAt (update_fbo s i rw rh).2 i).texture = none ∧
      (entryAt (update_fbo s i rw rh).2 i).offscreen = some o ∧
      (entryAt (update_fbo s i rw rh).2 i).requestWidth
        = (entryAt s i).requestWidth ∧
      (entryAt (update_fbo s i rw rh).2 i).requestHeight
        = (entryAt s i).requestHeight ∧
      (update_fbo s i rw rh).2.cogl.ref t = s.cogl.ref t - 1 ∧
      (update_fbo (update_fbo s i rw rh).2 i rw rh).1 = false) ∧
    ((entryAt s i).offscreen = none → (entryAt s i).pipeline = none →
      (entryAt s i).texture = none →
      s.eff.enabled = true → s.eff.attached = true →
      (s.cogl.texAllocOk = false ∨ s.cogl.fboAllocOk = false) →
      (clutter_offscreen_effect_pre_paint s).1 = false) ∧
    (∀ pb : ActorBox, s.actor.paintBox = some pb →
      s.eff.enabled = true → s.eff.attached = true →
      (update_fbo (writeEntry s i { entryAt s i with
          viewportXOffset := pb.x1 - (currentCamera s).viewport.x,
          viewportYOffset := pb.y1 - (currentCamera s).viewport.y }) i
        (cTrunc (pb.x2 - pb.x1)) (cTrunc (pb.y2 - pb.y1))).1 = false →
      (clutter_offscreen_effect_pre_paint s).1 = false) := by
  refine ⟨?_, ?_, ?_, ?_, ?_⟩
  · intro hoff hpipe htex hT
    unfold update_fbo
    rw [get_per_camera_state_noop s i hgen hage]
    simp [hoff, hpipe, htex, clutter_offscreen_effect_real_create_texture,
      coglAlloc, hT, entryAt_writeEntry, hlen]
  · intro hoff hpipe htex hT hF
    unfold update_fbo
    rw [get_per_camera_state_noop s i hgen hage]
    simp [hoff, hpipe, htex, clutter_offscreen_effect_real_create_texture,
      coglAlloc, hT, hF, coglUnref, entryAt_writeEntry, hlen]
  · intro o p t hoff hpipe htex hne hT
    have hage2 : (s.stage.cameras.getD
        ((s.eff.cameraState.getD i s.junk).cameraIdx) defaultCamera).age
        = (s.eff.cameraState.getD i s.junk).validForAge := hage
    have hget2 := get_per_camera_state_noop
      (writeEntry
        (Sys.mk
          (CoglCtx.mk s.cogl.nextId
            (fun x => if x = t then s.cogl.ref x - 1 else s.cogl.ref x)
            s.cogl.texSize s.cogl.curFb s.cogl.modelview s.cogl.mvStack
            s.cogl.projection s.cogl.viewport s.cogl.fbStack false
            s.cogl.fboAllocOk s.cogl.glslOk s.cogl.warnings
            s.cogl.subtreePaints s.cogl.blits)
          s.stage s.actor s.eff s.junk)
        i
        (PerCameraState.mk (entryAt s i).cameraIdx (entryAt s i).validForAge
          (some o) (some p) none (entryAt s i).viewportXOffset
          (entryAt s i).viewportYOffset (entryAt s i).requestWidth
          (entryAt s i).requestHeight (entryAt s i).lastMatrixDrawn))
      i hgen (by
        dsimp only [entryAt, writeEntry, camAge]
        simp only [getD_set_self, List.length_set, hlen]
        exact hage2)
    unfold update_fbo
    rw [get_per_camera_state_noop s i hgen hage]
    simp [hoff, hpipe, htex, hne, clutter_offscreen_effect_real_create_texture,
      coglUnref, hT, entryAt_writeEntry, hlen, hget2,
      getD_set_self, List.length_set]
  · intro hoff hpipe htex hen hat hfail
    subst hi
    unfold clutter_offscreen_effect_pre_paint
    rw [get_per_camera_state_noop s (camIndex s) hgen hage]
    cases hpb : s.actor.paintBox with
    | none =>
      simp only [hen, hat, hpb, camIndex_writeEntry]
      simp [update_fbo_fail_after_offsets s (camIndex s) _ _ _ _ hgen hage hlen
        hoff hpipe htex hfail]
    | some b =>
      simp only [hen, hat, hpb, camIndex_writeEntry]
      simp [update_fbo_fail_after_offsets s (camIndex s) _ _ _ _ hgen hage hlen
        hoff hpipe htex hfail]
  · intro pb hpb hen hat hfail
    subst hi
    unfold clutter_offscreen_effect_pre_paint
    rw [get_per_camera_state_noop s (camIndex s) hgen hage]
    simp only [hen, hat, hpb, camIndex_writeEntry]
    simp [hfail]

def sysWarmTexFail : Sys :=
  { sysWarm with
    cogl := { coglWarm with texAllocOk := false },
    actor := { actorBase with paintBox := some (ActorBox.mk 50 50 100 100) } }

theorem update_fbo_failure_spec_witness :
    (update_fbo sysFboFail 0 10 10).1 = false ∧
    (clutter_offscreen_effect_pre_paint sysFboFail).1 = false ∧
    (update_fbo sysWarmTexFail 0 50 50).1 = false ∧
    (entryAt (update_fbo sysWarmTexFail 0 50 50).2 0).offscreen = some 2 ∧
    (entryAt (update_fbo sysWarmTexFail 0 50 50).2 0).texture = none ∧
    (update_fbo (update_fbo sysWarmTexFail 0 50 50).2 0 50 50).1 = false ∧
    (clutter_offscreen_effect_pre_paint sysWarmTexFail).1 = false := by
  have h := update_fbo_failure_spec sysFboFail 0 10 10 rfl rfl (by decide)
    (by decide)
  have h2 := update_fbo_failure_spec sysWarmTexFail 0 50 50 rfl rfl (by decide)
    (by decide)
  have hw := h2.2.2.1 2 0 1 (by decide) (by decide) (by decide) (by decide) rfl
  have h3 := update_fbo_failure_spec (writeEntry sysWarmTexFail 0
    { entryAt sysWarmTexFail 0 with
      viewportXOffset := (ActorBox.mk 50 50 100 100).x1
        - (currentCamera sysWarmTexFail).viewport.x,
      viewportYOffset := (ActorBox.mk 50 50 100 100).y1
        - (currentCamera sysWarmTexFail).viewport.y }) 0
    (cTrunc ((ActorBox.mk 50 50 100 100).x2 - (ActorBox.mk 50 50 100 100).x1))
    (cTrunc ((ActorBox.mk 50 50 100 100).y2 - (ActorBox.mk 50 50 100 100).y1))
    rfl rfl (by decide) (by decide)
  have hfail := (h3.2.2.1 2 0 1 (by decide) (by decide) (by decide)
    (by norm_num [cTrunc, entryAt, writeEntry, sysWarmTexFail, sysWarm,
      warmE]) rfl).1
  exact ⟨(h.2.1 (by decide) (by decide) (by decide) rfl rfl).1,
    h.2.2.2.1 (by decide) (by decide) (by decide) rfl rfl (Or.inr rfl),
    hw.1, hw.2.2.2.2.1, hw.2.2.2.1, hw.2.2.2.2.2.2.2.2,
    h2.2.2.2.2 (ActorBox.mk 50 50 100 100) rfl rfl rfl hfail⟩

def sysRebuild : Sys :=
  { sysWarm with stage := { stageOne with camerasAge := 1 } }

/-- Claim C5 context: at a generation-mismatch rebuild, the per-camera
entry holding pipeline handle 0, texture handle 1 and offscreen handle
2 (one reference each) is released by `invalidate_per_camera_state` and
the array reallocated: the pipeline and offscreen references drop to
baseline 0, but the texture's reference stays at 1 even though no
entry stores the handle any more — the rebuild leaks the texture
reference (the claim that all three handles are unreferenced exactly
once fails on the texture). -/
theorem camera_rebuild_releases_and_leaks :
    (get_per_camera_state sysRebuild 0).cogl.ref 0 = 0 ∧
    (get_per_camera_state sysRebuild 0).cogl.ref 2 = 0 ∧
    (get_per_camera_state sysRebuild 0).cogl.ref 1 = 1 ∧
    (entryAt (get_per_camera_state sysRebuild 0) 0).texture = none ∧
    (entryAt (get_per_camera_state sysRebuild 0) 0).offscreen = none ∧
    (entryAt (get_per_camera_state sysRebuild 0) 0).pipeline = none := by
  decide

def shWorld0 : ShaderCogl :=
  { nextId := 0, snippetSrc := fun _ => "", pipeSnippets := fun _ => [] }

def shEff0 : ClutterShaderEffectSt :=
  { shader_type := ShaderType.fragment, pipeline := none, snippet := none }

/-- Claim C8, counterexample: after a first successful call installs
the snippet, a subsequent call with an empty source does not return
true — the `g_return_val_if_fail` precondition rejects it with false,
so "every subsequent call (with any source) returns true" fails. -/
theorem shader_source_second_call_empty_counterexample :
    ((clutter_shader_effect_set_shader_source shWorld0 shEff0 ("x")).2.2.snippet
        ≠ none) ∧
    (clutter_shader_effect_set_shader_source
      (clutter_shader_effect_set_shader_source shWorld0 shEff0 ("x")).2.1
      (clutter_shader_effect_set_shader_source shWorld0 shEff0 ("x")).2.2
      ("")).1 = false := by
  decide

/-- Claim C8 (amended): the first `set_shader_source` call with a
non-empty source installs the snippet and returns true; every
subsequent call with a non-empty source returns true while leaving the
state (snippet and pipeline included) unchanged; a call with a
NULL/empty source is rejected with false and also changes nothing —
first source wins, but the unconditional "returns true" holds only for
non-empty sources. -/
theorem clutter_shader_effect_set_shader_source_first_wins
    (w : ShaderCogl) (e : ClutterShaderEffectSt) (src : String)
    (hs : src ≠ "") :
    (e.snippet = none →
      (clutter_shader_effect_set_shader_source w e src).1 = true ∧
      (clutter_shader_effect_set_shader_source w e src).2.2.snippet ≠ none) ∧
    (e.snippet ≠ none →
      clutter_shader_effect_set_shader_source w e src = (true, w, e)) ∧
    (clutter_shader_effect_set_shader_source w e ("") = (false, w, e)) := by
  refine ⟨?_, ?_, ?_⟩
  · intro hn
    unfold clutter_shader_effect_set_shader_source
    simp [hs, hn]
  · intro hn
    unfold clutter_shader_effect_set_shader_source
    simp [hs, hn]
  · unfold clutter_shader_effect_set_shader_source
    simp

theorem clutter_shader_effect_set_shader_source_first_wins_witness :
    (clutter_shader_effect_set_shader_source shWorld0 shEff0 ("x")).1 = true ∧
    (clutter_shader_effect_set_shader_source shWorld0 shEff0 ("")).1 = false := by
  have h := clutter_shader_effect_set_shader_source_first_wins shWorld0 shEff0
    ("x") (by decide)
  exact ⟨(h.1 rfl).1, by rw [h.2.2]⟩

/-- Claim C10: when GLSL shader support is unavailable, the blur
effect's `pre_paint` does not just fail for the frame: it emits one
warning and forcibly clears the ActorMeta enabled flag, and any
`pre_paint` call on a disabled instance returns false immediately and
changes nothing (no feature re-check, no further warning), regardless
of the feature flag's current value. -/
theorem blur_pre_paint_disables_on_missing_glsl (s t : Sys)
    (hen : s.eff.enabled = true) (hat : s.eff.attached = true)
    (hg : s.cogl.glslOk = false) :
    ((clutter_blur_effect_pre_paint s).1 = false ∧
     (clutter_blur_effect_pre_paint s).2.eff.enabled = false ∧
     (clutter_blur_effect_pre_paint s).2.cogl.warnings = s.cogl.warnings + 1) ∧
    (t.eff.enabled = false → clutter_blur_effect_pre_paint t = (false, t)) := by
  constructor
  · unfold clutter_blur_effect_pre_paint
    simp [hen, hat, hg]
  · intro ht
    unfold clutter_blur_effect_pre_paint
    simp [ht]

def sysNoGlsl : Sys :=
  { sysWarm with cogl := { coglWarm with glslOk := false } }

def sysDisabled : Sys :=
  { sysWarm with eff := { sysWarm.eff with enabled := false } }

theorem blur_pre_paint_disables_on_missing_glsl_witness :
    (clutter_blur_effect_pre_paint sysNoGlsl).1 = false ∧
    (clutter_blur_effect_pre_paint sysNoGlsl).2.eff.enabled = false ∧
    clutter_blur_effect_pre_paint sysDisabled = (false, sysDisabled) := by
  have h := blur_pre_paint_disables_on_missing_glsl sysNoGlsl sysDisabled rfl rfl
    rfl
  exact ⟨h.1.1, h.1.2.1, h.2 rfl⟩

theorem gaussWeight_pos (sigma : ℚ) (hs : 0 < sigma) (i : ℤ) :
    0 < gaussWeight sigma i := by
  unfold gaussWeight
  have hs' : (0 : ℝ) < (sigma : ℝ) := by exact_mod_cast hs
  have hpi := Real.pi_pos
  apply div_pos (Real.exp_pos _)
  apply Real.sqrt_pos.mpr
  positivity

theorem blurRadius_nonneg (sigma : ℚ) (hs : 0 < sigma) : 0 ≤ blurRadius sigma := by
  unfold blurRadius
  apply Int.floor_nonneg.mpr
  have h6 : (0 : ℚ) < 6 * sigma := by linarith
  have hc : (0 : ℤ) < ⌈6 * sigma⌉ := Int.ceil_pos.mpr h6
  have : (0 : ℚ) ≤ ((⌈6 * sigma⌉ : ℤ) : ℚ) := by exact_mod_cast hc.le
  positivity

theorem list_sum_map_div (l : List ℝ) (c : ℝ) :
    (l.map (fun x => x / c)).sum = l.sum / c := by
  induction l with
  | nil => simp
  | cons a t ih => simp [ih, add_div]

/-- For positive sigma the normalized weight array sums to exactly one
(real-number model of the float computation). -/
theorem blurFactors_sum (sigma : ℚ) (radius : ℤ) (hs : 0 < sigma)
    (hr : 0 ≤ radius) : (blurFactors sigma radius).sum = 1 := by
  unfold blurFactors
  by_cases h0 : radius = 0
  · simp [h0]
  · have hrp : 1 ≤ radius := lt_of_le_of_ne hr (Ne.symm h0)
    have hn : 0 < (2 * radius + 1).toNat := by omega
    simp only [h0, if_false]
    set raw := (List.range (2 * radius + 1).toNat).map
      (fun (j : Nat) => gaussWeight sigma ((j : ℤ) - radius)) with hraw
    have hpos : ∀ x ∈ raw, (0 : ℝ) < x := by
      intro x hx
      rw [hraw] at hx
      obtain ⟨j, _, hj⟩ := List.mem_map.mp hx
      rw [← hj]
      exact gaussWeight_pos sigma hs _
    have hlenraw : raw.length = (2 * radius + 1).toNat := by
      rw [hraw]
      simp
    have hne : raw ≠ [] := by
      intro hcon
      rw [hcon] at hlenraw
      simp at hlenraw
      omega
    have hsum : 0 < raw.sum := List.sum_pos raw hpos hne
    rw [list_sum_map_div]
    exact div_self (ne_of_gt hsum)

theorem factorsUniform_after_set (w : BlurCogl) (H V : Option CoglHandle)
    (f : List ℝ) (hp : CoglHandle) (h : H = some hp ∨ V = some hp) :
    (setFactorsUniform V f (setFactorsUniform H f w)).factorsUniform hp = f := by
  cases V with
  | none =>
    rcases h with h | h
    · rw [h]
      simp [setFactorsUniform]
    · exact absurd h (by simp)
  | some q =>
    by_cases hq : hp = q
    · simp [setFactorsUniform, hq]
    · rcases h with h | h
      · rw [h]
        simp [setFactorsUniform, hq]
      · exact absurd (Option.some.inj h).symm hq

/-- Claim C2: for positive sigma with changed value, `set_sigma_real`
stores the radius `floor (ceil (6 sigma) / 2)` and uploads to both
convolution pipelines the weight array `blurFactors`, which has length
`2 * radius + 1`, holds the renormalized Gaussian samples summing to
exactly 1 (in the real-number model; float code is within tolerance),
and degenerates to the single weight `1.0` when the radius is zero. -/
theorem blur_kernel_correct (k : BlurClassState) (w : BlurCogl)
    (self : ClutterBlurEffectSt) (sigma : ℚ)
    (hs : 0 < sigma) (hne : self.sigma ≠ sigma) :
    (clutter_blur_effect_set_sigma_real k w self sigma).1.radius =
      ⌊((⌈6 * sigma⌉ : ℤ) : ℚ) / 2⌋ ∧
    (blurFactors sigma (blurRadius sigma)).length =
      (2 * blurRadius sigma + 1).toNat ∧
    (blurFactors sigma (blurRadius sigma)).sum = 1 ∧
    (blurRadius sigma = 0 → blurFactors sigma (blurRadius sigma) = [1]) ∧
    (∀ hp, (clutter_blur_effect_set_sigma_real k w self sigma).1.horizontal_pipeline
        = some hp →
      (clutter_blur_effect_set_sigma_real k w self sigma).2.2.factorsUniform hp =
        blurFactors sigma (blurRadius sigma)) ∧
    (∀ vp, (clutter_blur_effect_set_sigma_real k w self sigma).1.vertical_pipeline
        = some vp →
      (clutter_blur_effect_set_sigma_real k w self sigma).2.2.factorsUniform vp =
        blurFactors sigma (blurRadius sigma)) := by
  have hlen : (blurFactors sigma (blurRadius sigma)).length =
      (2 * blurRadius sigma + 1).toNat := by
    unfold blurFactors
    by_cases h0 : blurRadius sigma = 0
    · simp [h0]
    · simp only [h0, if_false]
      rw [List.length_map, List.length_map, List.length_range]
  have hsum := blurFactors_sum sigma (blurRadius sigma) hs
    (blurRadius_nonneg sigma hs)
  have hid : blurRadius sigma = 0 → blurFactors sigma (blurRadius sigma) = [1] := by
    intro h0
    simp [blurFactors, h0]
  refine ⟨?_, hlen, hsum, hid, ?_, ?_⟩
  · unfold clutter_blur_effect_set_sigma_real
    simp only [hne, if_false]
    rfl
  · intro hp hhp
    unfold clutter_blur_effect_set_sigma_real at hhp ⊢
    simp only [hne, if_false] at hhp ⊢
    exact factorsUniform_after_set _ _ _ _ hp (Or.inl hhp)
  · intro vp hvp
    unfold clutter_blur_effect_set_sigma_real at hvp ⊢
    simp only [hne, if_false] at hvp ⊢
    exact factorsUniform_after_set _ _ _ _ vp (Or.inr hvp)

def blurEffect0 : ClutterBlurEffectSt :=
  { sigma := 0, radius := 0, tex_width := 0, tex_height := 0,
    vertical_texture_dirty := false, horizontal_texture := none,
    vertical_texture := none, vertical_fbo := none,
    horizontal_pipeline := none, vertical_pipeline := none }

def blurClass0 : BlurClassState := { pipeline_cache := [] }

def blurCogl0 : BlurCogl :=
  { nextId := 0, ref := fun _ => 0, factorsUniform := fun _ => [],
    pixelStep := fun _ => (0, 0) }

theorem blur_kernel_correct_witness :
    (clutter_blur_effect_set_sigma_real blurClass0 blurCogl0 blurEffect0 1).1.radius
      = ⌊((⌈6 * (1 : ℚ)⌉ : ℤ) : ℚ) / 2⌋ ∧
    (blurFactors 1 (blurRadius 1)).sum = 1 := by
  have h := blur_kernel_correct blurClass0 blurCogl0 blurEffect0 1 (by decide)
    (by decide)
  exact ⟨h.1, h.2.2.1⟩

/-- All cached base-pipeline handles were allocated before the current
allocation counter — true of every cache reachable from the empty one. -/
def CacheFresh (k : BlurClassState) (w : BlurCogl) : Prop :=
  ∀ p ∈ k.pipeline_cache, p.2 < w.nextId

/-- Distinct radius keys map to distinct base pipelines — true of every
cache reachable from the empty one. -/
def CacheInj (k : BlurClassState) : Prop :=
  ∀ p ∈ k.pipeline_cache, ∀ q ∈ k.pipeline_cache, p.1 ≠ q.1 → p.2 ≠ q.2

theorem lookupRadius_mem {c : List (ℤ × CoglHandle)} {r : ℤ} {p : CoglHandle}
    (h : lookupRadius c r = some p) : (r, p) ∈ c := by
  unfold lookupRadius at h
  cases hf : c.find? (fun q => q.1 = r) with
  | none => rw [hf] at h; exact absurd h (by simp)
  | some q =>
    rw [hf] at h
    have hm := List.mem_of_find?_eq_some hf
    have hq := List.find?_some hf
    obtain ⟨q1, q2⟩ := q
    have h1 : q1 = r := by simpa using hq
    have h2 : q2 = p := by simpa using h
    rw [h1, h2] at hm
    exact hm

theorem lookupRadius_insert_self (c : List (ℤ × CoglHandle)) (r : ℤ)
    (p : CoglHandle) : lookupRadius ((r, p) :: c) r = some p := by
  simp [lookupRadius, List.find?_cons]

theorem lookupRadius_insert_ne (c : List (ℤ × CoglHandle)) (r rp : ℤ)
    (p : CoglHandle) (h : rp ≠ r) :
    lookupRadius ((r, p) :: c) rp = lookupRadius c rp := by
  simp [lookupRadius, List.find?_cons, Ne.symm h]

theorem setFactorsUniform_nextId (h : Option CoglHandle) (f : List ℝ)
    (w : BlurCogl) : (setFactorsUniform h f w).nextId = w.nextId := by
  cases h <;> simp [setFactorsUniform]

/-- Claim C7: with a well-formed class cache (handles allocated by the
cache itself: fresh and radius-injective), looking the same radius up
twice yields the identical base pipeline object, distinct radii yield
distinct objects, and a sigma change that keeps the derived radius
leaves both per-instance convolution pipelines and the class cache
untouched and allocates nothing — only the factors uniform values are
rewritten. -/
theorem blur_pipeline_cache_sharing (k : BlurClassState) (w : BlurCogl)
    (r rp : ℤ) (self : ClutterBlurEffectSt) (sigma : ℚ)
    (hfresh : CacheFresh k w) (hinj : CacheInj k) :
    ((get_blur_pipeline (get_blur_pipeline k w r).2.1
        (get_blur_pipeline k w r).2.2 r).1 = (get_blur_pipeline k w r).1) ∧
    (r ≠ rp →
      (get_blur_pipeline (get_blur_pipeline k w r).2.1
        (get_blur_pipeline k w r).2.2 rp).1 ≠ (get_blur_pipeline k w r).1) ∧
    (self.sigma ≠ sigma → blurRadius sigma = self.radius →
     self.horizontal_pipeline ≠ none →
      (clutter_blur_effect_set_sigma_real k w self sigma).1.horizontal_pipeline
          = self.horizontal_pipeline ∧
      (clutter_blur_effect_set_sigma_real k w self sigma).1.vertical_pipeline
          = self.vertical_pipeline ∧
      (clutter_blur_effect_set_sigma_real k w self sigma).2.1 = k ∧
      (clutter_blur_effect_set_sigma_real k w self sigma).2.2.nextId = w.nextId ∧
      (∀ hp, self.horizontal_pipeline = some hp →
        (clutter_blur_effect_set_sigma_real k w self sigma).2.2.factorsUniform hp
          = blurFactors sigma (blurRadius sigma))) := by
  refine ⟨?_, ?_, ?_⟩
  · cases hl : lookupRadius k.pipeline_cache r with
    | some p => simp [get_blur_pipeline, hl]
    | none => simp [get_blur_pipeline, hl, lookupRadius_insert_self]
  · intro hrne
    cases hl : lookupRadius k.pipeline_cache r with
    | some p =>
      have hm := lookupRadius_mem hl
      simp only [get_blur_pipeline, hl]
      cases hl2 : lookupRadius k.pipeline_cache rp with
      | some p2 =>
        simp only [hl2]
        have hm2 := lookupRadius_mem hl2
        have := hinj _ hm2 _ hm (by simpa using Ne.symm hrne)
        simpa using this
      | none =>
        simp only [hl2, blurAlloc]
        have hlt : p < w.nextId := hfresh (r, p) hm
        simp only [ne_eq]
        exact Nat.ne_of_gt hlt
    | none =>
      simp only [get_blur_pipeline, hl]
      rw [lookupRadius_insert_ne _ _ _ _ (Ne.symm hrne)]
      cases hl2 : lookupRadius k.pipeline_cache rp with
      | some p2 =>
        simp only [hl2, blurAlloc]
        have hlt : p2 < w.nextId := hfresh (rp, p2) (lookupRadius_mem hl2)
        simp only [ne_eq]
        exact Nat.ne_of_lt hlt
      | none =>
        simp [blurAlloc]
  · intro hσ hr hnn
    unfold clutter_blur_effect_set_sigma_real
    simp only [hσ, if_false, hr, ne_eq, not_true_eq_false, and_false,
      if_neg (fun hc : self.horizontal_pipeline = none => hnn hc)]
    refine ⟨trivial, trivial, trivial, ?_, ?_⟩
    · simp [setFactorsUniform_nextId]
    · intro hp hhp
      exact factorsUniform_after_set _ _ _ _ hp (Or.inl hhp)

def blurEffectWarm : ClutterBlurEffectSt :=
  { blurEffect0 with
    sigma := 1, radius := blurRadius 2,
    horizontal_pipeline := some 0, vertical_pipeline := some 1 }

theorem blur_pipeline_cache_sharing_witness :
    ((get_blur_pipeline (get_blur_pipeline blurClass0 blurCogl0 3).2.1
        (get_blur_pipeline blurClass0 blurCogl0 3).2.2 3).1
      = (get_blur_pipeline blurClass0 blurCogl0 3).1) ∧
    ((get_blur_pipeline (get_blur_pipeline blurClass0 blurCogl0 3).2.1
        (get_blur_pipeline blurClass0 blurCogl0 3).2.2 2).1
      ≠ (get_blur_pipeline blurClass0 blurCogl0 3).1) ∧
    (clutter_blur_effect_set_sigma_real blurClass0 blurCogl0 blurEffectWarm
      2).1.horizontal_pipeline = some 0 := by
  have h := blur_pipeline_cache_sharing blurClass0 blurCogl0 3 2 blurEffectWarm 2
    (by intro p hmem; simp [blurClass0] at hmem)
    (by intro p hmem; simp [blurClass0] at hmem)
  refine ⟨h.1, h.2.1 (by decide), ?_⟩
  have h3 := h.2.2 (by decide) rfl (by decide)
  rw [h3.1]
  decide

@[simp] theorem ite_true_eq_false {α : Type _} (a b : α) :
    (if true = false then a else b) = b := by
  simp

theorem get_per_camera_state_actor (s : Sys) (i : Nat) :
    (get_per_camera_state s i).actor = s.actor := by
  unfold get_per_camera_state
  split <;> (dsimp only; split <;> rfl)

theorem get_per_camera_state_stage (s : Sys) (i : Nat) :
    (get_per_camera_state s i).stage = s.stage := by
  unfold get_per_camera_state
  split <;> (dsimp only; split <;> rfl)

theorem cogl_pop_matrix_actor (s : Sys) : (cogl_pop_matrix s).actor = s.actor := by
  unfold cogl_pop_matrix
  split <;> rfl

theorem cogl_pop_framebuffer_actor (s : Sys) :
    (cogl_pop_framebuffer s).actor = s.actor := by
  unfold cogl_pop_framebuffer
  split <;> rfl

theorem clutter_offscreen_effect_paint_texture_actor (s : Sys) :
    (clutter_offscreen_effect_paint_texture s).actor = s.actor := by
  unfold clutter_offscreen_effect_paint_texture
    clutter_offscreen_effect_real_paint_target
  simp [cogl_pop_matrix_actor, cogl_push_matrix, get_per_camera_state_actor]

theorem clutter_offscreen_effect_post_paint_restores (s : Sys)
    (hgen : s.stage.camerasAge = s.eff.camerasAge)
    (hage : camAge s (entryAt s (camIndex s)).cameraIdx
      = (entryAt s (camIndex s)).validForAge)
    (hoff : (entryAt s (camIndex s)).offscreen ≠ none)
    (hpipe : (entryAt s (camIndex s)).pipeline ≠ none)
    (hat : s.eff.attached = true) :
    (clutter_offscreen_effect_post_paint s).actor.opacityOverride
      = s.eff.oldOpacityOverride := by
  unfold clutter_offscreen_effect_post_paint
  rw [get_per_camera_state_noop s (camIndex s) hgen hage]
  rw [if_neg (by simp [hoff, hpipe, hat])]
  rw [clutter_offscreen_effect_paint_texture_actor,
    cogl_pop_framebuffer_actor, cogl_pop_matrix_actor]

set_option maxHeartbeats 1000000 in
/-- Claim C9: a completed `pre_paint`/`post_paint` cycle on a live
entry (offscreen buffer and pipeline present, so `pre_paint` succeeds
through the warm `update_fbo` path and `post_paint` takes its restore
branch): `pre_paint` saves the current opacity override and forces the
override to fully opaque 0xff, and `post_paint` writes the saved value
back, leaving the actor's opacity override unchanged across the cycle.
(The PAINTING stage between the two hooks is the actor subtree's own
drawing, which does not touch the override slot or the effect state.) -/
theorem opacity_override_cycle
    (c0 : CoglCtx) (st0 : ClutterStageSt) (pb : ActorBox) (oo oov po : ℤ)
    (l0 : List PerCameraState) (jk : PerCameraState)
    (ho hp ht : CoglHandle) (vx vy : ℚ) (lm : CoglMatrix)
    (hlen : st0.current < l0.length)
    (hentry : l0.getD st0.current jk = PerCameraState.mk st0.current
      ((st0.cameras.getD st0.current defaultCamera).age) (some ho) (some hp)
      (some ht) vx vy (cTrunc (pb.x2 - pb.x1)) (cTrunc (pb.y2 - pb.y1)) lm) :
    (clutter_offscreen_effect_pre_paint (Sys.mk c0 st0
        (ActorSt.mk (some pb) oov po)
        (OffscreenEffectPriv.mk true true l0 st0.camerasAge oo) jk)).1 = true ∧
    (clutter_offscreen_effect_pre_paint (Sys.mk c0 st0
        (ActorSt.mk (some pb) oov po)
        (OffscreenEffectPriv.mk true true l0 st0.camerasAge oo)
        jk)).2.actor.opacityOverride = 0xff ∧
    (clutter_offscreen_effect_pre_paint (Sys.mk c0 st0
        (ActorSt.mk (some pb) oov po)
        (OffscreenEffectPriv.mk true true l0 st0.camerasAge oo)
        jk)).2.eff.oldOpacityOverride = oov ∧
    (clutter_offscreen_effect_post_paint
      (clutter_offscreen_effect_pre_paint (Sys.mk c0 st0
        (ActorSt.mk (some pb) oov po)
        (OffscreenEffectPriv.mk true true l0 st0.camerasAge oo)
        jk)).2).actor.opacityOverride = oov := by
  have hage0 : camAge (Sys.mk c0 st0 (ActorSt.mk (some pb) oov po)
      (OffscreenEffectPriv.mk true true l0 st0.camerasAge oo) jk)
      (entryAt (Sys.mk c0 st0 (ActorSt.mk (some pb) oov po)
        (OffscreenEffectPriv.mk true true l0 st0.camerasAge oo) jk)
        st0.current).cameraIdx
      = (entryAt (Sys.mk c0 st0 (ActorSt.mk (some pb) oov po)
        (OffscreenEffectPriv.mk true true l0 st0.camerasAge oo) jk)
        st0.current).validForAge := by
    dsimp only [entryAt, camAge]
    rw [hentry]
  have hget0 := get_per_camera_state_noop (Sys.mk c0 st0
    (ActorSt.mk (some pb) oov po)
    (OffscreenEffectPriv.mk true true l0 st0.camerasAge oo) jk) st0.current rfl
    hage0
  unfold clutter_offscreen_effect_pre_paint
  dsimp only [camIndex]
  simp only [hget0]
  dsimp only [entryAt, writeEntry, currentCamera]
  simp only [hentry]
  simp only [update_fbo_warm_noop, entryAt, camAge, getD_set_self, hlen,
    List.length_set, Option.some_ne_none, ne_eq, not_false_eq_true,
    not_true_eq_false, writeEntry, texWidth, texHeight,
    cogl_push_framebuffer, cogl_push_matrix, ite_true_eq_false]
  refine ⟨trivial, trivial, trivial, ?_⟩
  rw [clutter_offscreen_effect_post_paint_restores _ rfl ?hage ?hoff ?hpipe rfl]
  case hage =>
    dsimp only [entryAt, camAge, camIndex]
    simp only [getD_set_self, List.length_set, hlen]
  case hoff =>
    dsimp only [entryAt, camIndex]
    simp only [getD_set_self, List.length_set, hlen]
    simp
  case hpipe =>
    dsimp only [entryAt, camIndex]
    simp only [getD_set_self, List.length_set, hlen]
    simp

set_option maxHeartbeats 1000000 in
/-- Claim C3: during `pre_paint` (warm entry, texture of size tw × th,
paint box vertically inside the viewport and not past the right edge),
if the box straddles only the left viewport edge by Δ > 0 pixels
(`viewport_x_offset = -Δ`), the expanded viewport width is the original
width + 2Δ and every entry of the projection's first column is scaled
by width / (width + 2Δ); when the box is fully inside on the x axis as
well, the viewport keeps the original width and height and the
projection is installed unscaled. -/
theorem pre_paint_viewport_expansion
    (c0 : CoglCtx) (st0 : ClutterStageSt) (pb : ActorBox) (oo oov po : ℤ)
    (l0 : List PerCameraState) (jk : PerCameraState)
    (ho hp ht : CoglHandle) (vx vy : ℚ) (lm : CoglMatrix)
    (hlen : st0.current < l0.length)
    (hentry : l0.getD st0.current jk = PerCameraState.mk st0.current
      ((st0.cameras.getD st0.current defaultCamera).age) (some ho) (some hp)
      (some ht) vx vy (cTrunc (pb.x2 - pb.x1)) (cTrunc (pb.y2 - pb.y1)) lm)
    (tw th : ℤ) (htex : c0.texSize ht = (tw, th))
    (hny : ¬ (pb.y1 - (st0.cameras.getD st0.current defaultCamera).viewport.y < 0))
    (hiny : ¬ ((st0.cameras.getD st0.current defaultCamera).viewport.h <
      pb.y1 - (st0.cameras.getD st0.current defaultCamera).viewport.y + (th : ℚ)))
    (hinx : ¬ ((st0.cameras.getD st0.current defaultCamera).viewport.w <
      pb.x1 - (st0.cameras.getD st0.current defaultCamera).viewport.x + (tw : ℚ))) :
    (∀ Δ : ℚ, 0 < Δ →
      pb.x1 - (st0.cameras.getD st0.current defaultCamera).viewport.x = -Δ →
      (clutter_offscreen_effect_pre_paint (Sys.mk c0 st0
        (ActorSt.mk (some pb) oov po)
        (OffscreenEffectPriv.mk true true l0 st0.camerasAge oo)
        jk)).2.cogl.viewport.w
        = (st0.cameras.getD st0.current defaultCamera).viewport.w + 2 * Δ ∧
      ∀ i : Fin 4, (clutter_offscreen_effect_pre_paint (Sys.mk c0 st0
        (ActorSt.mk (some pb) oov po)
        (OffscreenEffectPriv.mk true true l0 st0.camerasAge oo)
        jk)).2.cogl.projection i 0
        = st0.projection i 0 *
          ((st0.cameras.getD st0.current defaultCamera).viewport.w /
           ((st0.cameras.getD st0.current defaultCamera).viewport.w + 2 * Δ))) ∧
    (¬ (pb.x1 - (st0.cameras.getD st0.current defaultCamera).viewport.x < 0) →
      (clutter_offscreen_effect_pre_paint (Sys.mk c0 st0
        (ActorSt.mk (some pb) oov po)
        (OffscreenEffectPriv.mk true true l0 st0.camerasAge oo)
        jk)).2.cogl.viewport.w
        = (st0.cameras.getD st0.current defaultCamera).viewport.w ∧
      (clutter_offscreen_effect_pre_paint (Sys.mk c0 st0
        (ActorSt.mk (some pb) oov po)
        (OffscreenEffectPriv.mk true true l0 st0.camerasAge oo)
        jk)).2.cogl.viewport.h
        = (st0.cameras.getD st0.current defaultCamera).viewport.h ∧
      (clutter_offscreen_effect_pre_paint (Sys.mk c0 st0
        (ActorSt.mk (some pb) oov po)
        (OffscreenEffectPriv.mk true true l0 st0.camerasAge oo)
        jk)).2.cogl.projection = st0.projection) := by
  have hage0 : camAge (Sys.mk c0 st0 (ActorSt.mk (some pb) oov po)
      (OffscreenEffectPriv.mk true true l0 st0.camerasAge oo) jk)
      (entryAt (Sys.mk c0 st0 (ActorSt.mk (some pb) oov po)
        (OffscreenEffectPriv.mk true true l0 st0.camerasAge oo) jk)
        st0.current).cameraIdx
      = (entryAt (Sys.mk c0 st0 (ActorSt.mk (some pb) oov po)
        (OffscreenEffectPriv.mk true true l0 st0.camerasAge oo) jk)
        st0.current).validForAge := by
    dsimp only [entryAt, camAge]
    rw [hentry]
  have hget0 := get_per_camera_state_noop (Sys.mk c0 st0
    (ActorSt.mk (some pb) oov po)
    (OffscreenEffectPriv.mk true true l0 st0.camerasAge oo) jk) st0.current rfl
    hage0
  unfold clutter_offscreen_effect_pre_paint
  dsimp only [camIndex]
  simp only [hget0]
  dsimp only [entryAt, writeEntry, currentCamera]
  simp only [hentry]
  simp only [update_fbo_warm_noop, entryAt, camAge, getD_set_self, hlen,
    List.length_set, Option.some_ne_none, ne_eq, not_false_eq_true,
    not_true_eq_false, writeEntry, texWidth, texHeight,
    cogl_push_framebuffer, cogl_push_matrix, ite_true_eq_false, htex]
  have hgd : st0.cameras.getD st0.current defaultCamera
      = (st0.cameras[st0.current]?).getD defaultCamera :=
    List.getD_eq_getElem?_getD _ _ _
  rw [hgd] at hinx hny hiny
  constructor
  · intro dd hdd hx1
    rw [hgd] at hx1
    have hngx : pb.x1 < ((st0.cameras[st0.current]?).getD defaultCamera).viewport.x := by
      linarith
    have hnyy : ¬ (pb.y1 < ((st0.cameras[st0.current]?).getD defaultCamera).viewport.y) := by
      intro hc
      exact hny (by linarith)
    have hx1p : ((st0.cameras[st0.current]?).getD defaultCamera).viewport.x - pb.x1
        = dd := by linarith
    constructor
    · simp [hngx, hinx, hnyy, hiny, hx1p]
    · intro i
      simp [hngx, hinx, hnyy, hiny, hx1p, hdd, cogl_matrix_scale, scaleFactors]
  · intro hng0
    rw [hgd] at hng0
    have hngx : ¬ (pb.x1 < ((st0.cameras[st0.current]?).getD defaultCamera).viewport.x) := by
      intro hc
      exact hng0 (by linarith)
    have hnyy : ¬ (pb.y1 < ((st0.cameras[st0.current]?).getD defaultCamera).viewport.y) := by
      intro hc
      exact hny (by linarith)
    refine ⟨?_, ?_, ?_⟩
    · simp [hngx, hinx, hnyy, hiny]
    · simp [hngx, hinx, hnyy, hiny]
    · simp [hngx, hinx, hnyy, hiny]

def cycleEntry : PerCameraState :=
  PerCameraState.mk 0 ((stageOne.cameras.getD 0 defaultCamera).age) (some 2)
    (some 0) (some 1) 50 50 (cTrunc ((150 : ℚ) - 50)) (cTrunc ((150 : ℚ) - 50)) 1

def sysCycle : Sys :=
  Sys.mk coglWarm stageOne
    (ActorSt.mk (some (ActorBox.mk 50 50 150 150)) (-1) 255)
    (OffscreenEffectPriv.mk true true [cycleEntry] stageOne.camerasAge 0) junkE

theorem opacity_override_cycle_witness :
    (clutter_offscreen_effect_pre_paint sysCycle).1 = true ∧
    (clutter_offscreen_effect_pre_paint sysCycle).2.actor.opacityOverride = 0xff ∧
    (clutter_offscreen_effect_post_paint
      (clutter_offscreen_effect_pre_paint sysCycle).2).actor.opacityOverride
      = -1 := by
  have h := opacity_override_cycle coglWarm stageOne (ActorBox.mk 50 50 150 150)
    0 (-1) 255 [cycleEntry] junkE 2 0 1 50 50 1 (by decide) rfl
  exact ⟨h.1, h.2.1, h.2.2.2⟩

def expBox : ActorBox := ActorBox.mk (-10) 50 90 150

def expEntry : PerCameraState :=
  PerCameraState.mk 0 ((stageOne.cameras.getD 0 defaultCamera).age) (some 2)
    (some 0) (some 1) 50 50 (cTrunc (expBox.x2 - expBox.x1))
    (cTrunc (expBox.y2 - expBox.y1)) 1

theorem pre_paint_viewport_expansion_witness :
    (clutter_offscreen_effect_pre_paint (Sys.mk coglWarm stageOne
      (ActorSt.mk (some expBox) (-1) 255)
      (OffscreenEffectPriv.mk true true [expEntry] stageOne.camerasAge 0)
      junkE)).2.cogl.viewport.w
      = (stageOne.cameras.getD stageOne.current defaultCamera).viewport.w
        + 2 * 10 := by
  have h := pre_paint_viewport_expansion coglWarm stageOne expBox 0 (-1) 255
    [expEntry] junkE 2 0 1 50 50 1 (by decide) rfl 100 100 rfl
    (by norm_num [stageOne, cam5, vpStage, expBox])
    (by norm_num [stageOne, cam5, vpStage, expBox])
    (by norm_num [stageOne, cam5, vpStage, expBox])
  exact (h.1 10 (by norm_num)
    (by norm_num [stageOne, cam5, vpStage, expBox])).1

/-- N-fold iteration of the top-level paint with the dirty flag unset
(N consecutive frames of an unmoving, unchanged actor). -/
def paintN (n : Nat) (s : Sys) : Sys :=
  (clutter_offscreen_effect_paint false)^[n] s

theorem get_noop_cogl (s : Sys)
    (hgen : s.stage.camerasAge = s.eff.camerasAge)
    (hage : camAge s (entryAt s (camIndex s)).cameraIdx
      = (entryAt s (camIndex s)).validForAge) (c : CoglCtx) :
    get_per_camera_state { s with cogl := c } (camIndex { s with cogl := c })
      = { s with cogl := c } :=
  get_per_camera_state_noop _ _ hgen hage

theorem paint_texture_noop (s : Sys)
    (hgen : s.stage.camerasAge = s.eff.camerasAge)
    (hage : camAge s (entryAt s (camIndex s)).cameraIdx
      = (entryAt s (camIndex s)).validForAge) :
    clutter_offscreen_effect_paint_texture s
      = { s with cogl := { s.cogl with blits := s.cogl.blits + 1 } } := by
  unfold clutter_offscreen_effect_paint_texture
    clutter_offscreen_effect_real_paint_target
  rw [get_per_camera_state_noop s (camIndex s) hgen hage]
  simp only [get_noop_cogl s hgen hage, cogl_push_matrix, cogl_pop_matrix]

theorem paint_hit_step (s : Sys)
    (hgen : s.stage.camerasAge = s.eff.camerasAge)
    (hage : camAge s (entryAt s (camIndex s)).cameraIdx
      = (entryAt s (camIndex s)).validForAge)
    (hoff : (entryAt s (camIndex s)).offscreen ≠ none)
    (hmat : s.cogl.modelview = (entryAt s (camIndex s)).lastMatrixDrawn) :
    clutter_offscreen_effect_paint false s
      = { s with cogl := { s.cogl with blits := s.cogl.blits + 1 } } := by
  unfold clutter_offscreen_effect_paint
  rw [get_per_camera_state_noop s (camIndex s) hgen hage]
  rw [if_neg (by simp [hoff, hmat, hage])]
  exact paint_texture_noop s hgen hage

theorem paint_hit_iterate : ∀ (n : Nat) (s : Sys),
    s.stage.camerasAge = s.eff.camerasAge →
    camAge s (entryAt s (camIndex s)).cameraIdx
      = (entryAt s (camIndex s)).validForAge →
    (entryAt s (camIndex s)).offscreen ≠ none →
    s.cogl.modelview = (entryAt s (camIndex s)).lastMatrixDrawn →
    (clutter_offscreen_effect_paint false)^[n] s
      = { s with cogl := { s.cogl with blits := s.cogl.blits + n } } := by
  intro n
  induction n with
  | zero =>
    intro s _ _ _ _
    simp [Function.iterate_zero]
  | succ n ih =>
    intro s hgen hage hoff hmat
    rw [Function.iterate_succ_apply, paint_hit_step s hgen hage hoff hmat]
    rw [ih { s with cogl := { s.cogl with blits := s.cogl.blits + 1 } }
      hgen hage hoff hmat]
    have h1 : s.cogl.blits + 1 + n = s.cogl.blits + (n + 1) := by omega
    simp [h1]

set_option maxHeartbeats 2000000 in
theorem paint_cold_spec
    (c0 : CoglCtx) (st0 : ClutterStageSt) (pb : ActorBox) (oo oov po : ℤ)
    (l0 : List PerCameraState) (jk : PerCameraState)
    (vx vy : ℚ) (rw0 rh0 : ℤ) (lm : CoglMatrix)
    (hlen : st0.current < l0.length)
    (hentry : l0.getD st0.current jk = PerCameraState.mk st0.current
      ((st0.cameras.getD st0.current defaultCamera).age) none none none
      vx vy rw0 rh0 lm)
    (hT : c0.texAllocOk = true) (hF : c0.fboAllocOk = true) :
    (clutter_offscreen_effect_paint false (Sys.mk c0 st0
        (ActorSt.mk (some pb) oov po)
        (OffscreenEffectPriv.mk true true l0 st0.camerasAge oo) jk)).stage
      = st0 ∧
    (clutter_offscreen_effect_paint false (Sys.mk c0 st0
        (ActorSt.mk (some pb) oov po)
        (OffscreenEffectPriv.mk true true l0 st0.camerasAge oo)
        jk)).eff.camerasAge = st0.camerasAge ∧
    entryAt (clutter_offscreen_effect_paint false (Sys.mk c0 st0
        (ActorSt.mk (some pb) oov po)
        (OffscreenEffectPriv.mk true true l0 st0.camerasAge oo) jk)) st0.current
      = PerCameraState.mk st0.current
          ((st0.cameras.getD st0.current defaultCamera).age)
          (some (c0.nextId + 2)) (some c0.nextId) (some (c0.nextId + 1))
          (pb.x1 - (st0.cameras.getD st0.current defaultCamera).viewport.x)
          (pb.y1 - (st0.cameras.getD st0.current defaultCamera).viewport.y)
          (cTrunc (pb.x2 - pb.x1)) (cTrunc (pb.y2 - pb.y1)) c0.modelview ∧
    (clutter_offscreen_effect_paint false (Sys.mk c0 st0
        (ActorSt.mk (some pb) oov po)
        (OffscreenEffectPriv.mk true true l0 st0.camerasAge oo)
        jk)).cogl.modelview = c0.modelview ∧
    (clutter_offscreen_effect_paint false (Sys.mk c0 st0
        (ActorSt.mk (some pb) oov po)
        (OffscreenEffectPriv.mk true true l0 st0.camerasAge oo)
        jk)).cogl.subtreePaints = c0.subtreePaints + 1 ∧
    (clutter_offscreen_effect_paint false (Sys.mk c0 st0
        (ActorSt.mk (some pb) oov po)
        (OffscreenEffectPriv.mk true true l0 st0.camerasAge oo)
        jk)).cogl.blits = c0.blits + 1 := by
  have hage0 : camAge (Sys.mk c0 st0 (ActorSt.mk (some pb) oov po)
      (OffscreenEffectPriv.mk true true l0 st0.camerasAge oo) jk)
      (entryAt (Sys.mk c0 st0 (ActorSt.mk (some pb) oov po)
        (OffscreenEffectPriv.mk true true l0 st0.camerasAge oo) jk)
        st0.current).cameraIdx
      = (entryAt (Sys.mk c0 st0 (ActorSt.mk (some pb) oov po)
        (OffscreenEffectPriv.mk true true l0 st0.camerasAge oo) jk)
        st0.current).validForAge := by
    dsimp only [entryAt, camAge]
    rw [hentry]
  have hget0 := get_per_camera_state_noop (Sys.mk c0 st0
    (ActorSt.mk (some pb) oov po)
    (OffscreenEffectPriv.mk true true l0 st0.camerasAge oo) jk) st0.current rfl
    hage0
  unfold clutter_offscreen_effect_paint clutter_effect_parent_paint
    clutter_offscreen_effect_pre_paint clutter_offscreen_effect_post_paint
    clutter_offscreen_effect_paint_texture
    clutter_offscreen_effect_real_paint_target
  dsimp only [camIndex]
  simp only [hget0]
  dsimp only [entryAt, writeEntry, currentCamera]
  simp only [hentry]
  simp only [get_per_camera_state_noop, update_fbo,
    clutter_offscreen_effect_real_create_texture, coglAlloc, coglUnref,
    entryAt, writeEntry, camIndex, currentCamera, camAge, hentry,
    getD_set_self, List.length_set, List.set_set, hlen, hT, hF,
    texWidth, texHeight, cogl_push_framebuffer, cogl_push_matrix,
    cogl_pop_matrix, cogl_pop_framebuffer,
    Option.some_ne_none, ne_eq, not_false_eq_true, not_true_eq_false,
    and_false, false_and, and_true, true_and, or_false, false_or, or_true,
    true_or, if_true, if_false, ite_true_eq_false]

/-- Claim C1: (a) for every call to the top-level `paint` with the
dirty flag unset, when the current camera's entry has a non-null
offscreen buffer, the modelview matrix equals the entry's
`last_matrix_drawn` and the entry's `valid_for_age` equals the
camera's current age, the whole repaint (pre_paint, the subtree
PAINTING pass, post_paint) is skipped and the call is exactly the
compositing blit of the existing texture; (b) starting from a fresh
entry with working allocations, across N+1 consecutive `paint` calls
with no dirty flag and unchanged camera age and matrices, the
content-producing subtree pass runs exactly once, every call
composites (one blit per call) and the texture handle is the same
handle, allocated by the first call, across all the calls. -/
theorem offscreen_paint_cache_reuse
    (c0 : CoglCtx) (st0 : ClutterStageSt) (pb : ActorBox) (oo oov po : ℤ)
    (l0 : List PerCameraState) (jk : PerCameraState)
    (vx vy : ℚ) (rw0 rh0 : ℤ) (lm : CoglMatrix)
    (hlen : st0.current < l0.length)
    (hentry : l0.getD st0.current jk = PerCameraState.mk st0.current
      ((st0.cameras.getD st0.current defaultCamera).age) none none none
      vx vy rw0 rh0 lm)
    (hT : c0.texAllocOk = true) (hF : c0.fboAllocOk = true) :
    (∀ t : Sys,
      (entryAt t (camIndex t)).offscreen ≠ none →
      t.cogl.modelview = (entryAt t (camIndex t)).lastMatrixDrawn →
      camAge t (entryAt t (camIndex t)).cameraIdx
        = (entryAt t (camIndex t)).validForAge →
      t.stage.camerasAge = t.eff.camerasAge →
      clutter_offscreen_effect_paint false t
        = { t with cogl := { t.cogl with blits := t.cogl.blits + 1 } }) ∧
    (∀ n : ℕ,
      (paintN (n + 1) (Sys.mk c0 st0 (ActorSt.mk (some pb) oov po)
        (OffscreenEffectPriv.mk true true l0 st0.camerasAge oo)
        jk)).cogl.subtreePaints = c0.subtreePaints + 1 ∧
      (entryAt (paintN (n + 1) (Sys.mk c0 st0 (ActorSt.mk (some pb) oov po)
        (OffscreenEffectPriv.mk true true l0 st0.camerasAge oo) jk))
        st0.current).texture = some (c0.nextId + 1) ∧
      (paintN (n + 1) (Sys.mk c0 st0 (ActorSt.mk (some pb) oov po)
        (OffscreenEffectPriv.mk true true l0 st0.camerasAge oo)
        jk)).cogl.blits = c0.blits + (n + 1)) := by
  obtain ⟨h1, h2, h3, h4, h5, h6⟩ := paint_cold_spec c0 st0 pb oo oov po l0 jk
    vx vy rw0 rh0 lm hlen hentry hT hF
  refine ⟨fun t hoff hmat hage hgen => paint_hit_step t hgen hage hoff hmat, ?_⟩
  intro n
  have hci : camIndex (clutter_offscreen_effect_paint false (Sys.mk c0 st0
      (ActorSt.mk (some pb) oov po)
      (OffscreenEffectPriv.mk true true l0 st0.camerasAge oo) jk))
      = st0.current := by
    dsimp only [camIndex]
    rw [h1]
  have hgen1 : (clutter_offscreen_effect_paint false (Sys.mk c0 st0
      (ActorSt.mk (some pb) oov po)
      (OffscreenEffectPriv.mk true true l0 st0.camerasAge oo) jk)).stage.camerasAge
      = (clutter_offscreen_effect_paint false (Sys.mk c0 st0
      (ActorSt.mk (some pb) oov po)
      (OffscreenEffectPriv.mk true true l0 st0.camerasAge oo) jk)).eff.camerasAge := by
    rw [h1, h2]
  have hage1 : camAge (clutter_offscreen_effect_paint false (Sys.mk c0 st0
      (ActorSt.mk (some pb) oov po)
      (OffscreenEffectPriv.mk true true l0 st0.camerasAge oo) jk))
      (entryAt (clutter_offscreen_effect_paint false (Sys.mk c0 st0
        (ActorSt.mk (some pb) oov po)
        (OffscreenEffectPriv.mk true true l0 st0.camerasAge oo) jk))
        (camIndex (clutter_offscreen_effect_paint false (Sys.mk c0 st0
          (ActorSt.mk (some pb) oov po)
          (OffscreenEffectPriv.mk true true l0 st0.camerasAge oo)
          jk)))).cameraIdx
      = (entryAt (clutter_offscreen_effect_paint false (Sys.mk c0 st0
        (ActorSt.mk (some pb) oov po)
        (OffscreenEffectPriv.mk true true l0 st0.camerasAge oo) jk))
        (camIndex (clutter_offscreen_effect_paint false (Sys.mk c0 st0
          (ActorSt.mk (some pb) oov po)
          (OffscreenEffectPriv.mk true true l0 st0.camerasAge oo)
          jk)))).validForAge := by
    rw [hci, h3]
    dsimp only [camAge]
    rw [h1]
  have hoff1 : (entryAt (clutter_offscreen_effect_paint false (Sys.mk c0 st0
      (ActorSt.mk (some pb) oov po)
      (OffscreenEffectPriv.mk true true l0 st0.camerasAge oo) jk))
      (camIndex (clutter_offscreen_effect_paint false (Sys.mk c0 st0
        (ActorSt.mk (some pb) oov po)
        (OffscreenEffectPriv.mk true true l0 st0.camerasAge oo)
        jk)))).offscreen ≠ none := by
    rw [hci, h3]
    simp
  have hmat1 : (clutter_offscreen_effect_paint false (Sys.mk c0 st0
      (ActorSt.mk (some pb) oov po)
      (OffscreenEffectPriv.mk true true l0 st0.camerasAge oo) jk)).cogl.modelview
      = (entryAt (clutter_offscreen_effect_paint false (Sys.mk c0 st0
        (ActorSt.mk (some pb) oov po)
        (OffscreenEffectPriv.mk true true l0 st0.camerasAge oo) jk))
        (camIndex (clutter_offscreen_effect_paint false (Sys.mk c0 st0
          (ActorSt.mk (some pb) oov po)
          (OffscreenEffectPriv.mk true true l0 st0.camerasAge oo)
          jk)))).lastMatrixDrawn := by
    rw [hci, h3, h4]
  have hiter := paint_hit_iterate n (clutter_offscreen_effect_paint false
    (Sys.mk c0 st0 (ActorSt.mk (some pb) oov po)
      (OffscreenEffectPriv.mk true true l0 st0.camerasAge oo) jk))
    hgen1 hage1 hoff1 hmat1
  have hstep : paintN (n + 1) (Sys.mk c0 st0 (ActorSt.mk (some pb) oov po)
      (OffscreenEffectPriv.mk true true l0 st0.camerasAge oo) jk)
      = (clutter_offscreen_effect_paint false)^[n]
        (clutter_offscreen_effect_paint false (Sys.mk c0 st0
          (ActorSt.mk (some pb) oov po)
          (OffscreenEffectPriv.mk true true l0 st0.camerasAge oo) jk)) := by
    unfold paintN
    rw [Function.iterate_succ_apply]
  rw [hstep, hiter]
  refine ⟨h5, ?_, ?_⟩
  · show (entryAt (clutter_offscreen_effect_paint false (Sys.mk c0 st0
      (ActorSt.mk (some pb) oov po)
      (OffscreenEffectPriv.mk true true l0 st0.camerasAge oo) jk))
      st0.current).texture = some (c0.nextId + 1)
    rw [h3]
  · dsimp only []
    rw [h6]
    omega

def sysColdC1 : Sys :=
  Sys.mk coglFresh stageOne
    (ActorSt.mk (some (ActorBox.mk 50 50 150 150)) (-1) 255)
    (OffscreenEffectPriv.mk true true [junkE] stageOne.camerasAge 0) junkE

theorem offscreen_paint_cache_reuse_witness :
    clutter_offscreen_effect_paint false sysWarm
      = { sysWarm with
          cogl := { sysWarm.cogl with blits := sysWarm.cogl.blits + 1 } } ∧
    (paintN 3 sysColdC1).cogl.subtreePaints = coglFresh.subtreePaints + 1 ∧
    (entryAt (paintN 3 sysColdC1) 0).texture = some (coglFresh.nextId + 1) ∧
    (paintN 3 sysColdC1).cogl.blits = coglFresh.blits + 3 := by
  have h := offscreen_paint_cache_reuse coglFresh stageOne
    (ActorBox.mk 50 50 150 150) 0 (-1) 255 [junkE] junkE 0 0 0 0 1
    (by decide) rfl rfl rfl
  exact ⟨h.1 sysWarm (by decide) rfl (by decide) rfl, (h.2 2).1, (h.2 2).2.1,
    (h.2 2).2.2⟩
